import Mathlib

/-!
Shallow embedding of the gallery lightbox widget
(`src/js/gallery-lightbox.js`).

The page's DOM data is modelled explicitly:

* a gallery thumbnail link (`.gallery .gallery-item[href]`) carries the
  results of `querySelector("picture")` and `querySelector("img")`;
* a `picture` element is an abstract source subtree identifier together
  with its nested `img` attributes and its CSS class list;
* the overlay's `figure` is a list of child nodes (media clones and the
  `figcaption`), so that `querySelector("picture")`, `remove()` and
  `insertBefore(clone, caption)` can be translated node for node.

The module-level mutable variables of the IIFE (`activeIndex`, `overlay`,
`restoreFocusTo`, the body class, the document-level keydown listener,
`document.activeElement`, and the number of overlay subtrees appended to
`document.body`) become the fields of `LightboxState`.  JavaScript's `%`
operator on integers is truncated remainder, embedded as `Int.tmod`.
-/

namespace GalleryLightbox

/-- Attributes of an `img` element that the widget reads or writes. -/
structure Img where
  alt : Option String
  loading : String
  decoding : String
  sizes : String
deriving DecidableEq, Repr

/-- A `picture` element subtree: an abstract identifier for its source
children, its nested `img` (if any), and its CSS class list. -/
structure Picture where
  content : Nat
  img : Option Img
  classes : List String
deriving DecidableEq, Repr

/-- A gallery thumbnail link, with the results of
`link.querySelector("picture")` and `link.querySelector("img")`. -/
structure GalleryLink where
  picture : Option Picture
  img : Option Img
deriving DecidableEq, Repr

/-- The record returned by `getItem`: the resolved `picture` and the
computed alt string. -/
structure ResolvedItem where
  picture : Option Picture
  alt : String
deriving DecidableEq, Repr

/-- A child node of the overlay's `figure` element: either an inserted
media clone or the `figcaption` element. -/
inductive FigNode where
  | media (p : Picture)
  | captionNode
deriving DecidableEq, Repr

/-- The overlay subtree state: the `figure`'s children, the caption's
`textContent`, and the overlay's `hidden` property. -/
structure OverlayState where
  figureChildren : List FigNode
  captionText : String
  hidden : Bool
deriving DecidableEq, Repr

/-- Elements that can hold keyboard focus: page elements (thumbnail links
and anything else on the page) and the overlay's close button. -/
inductive Elem where
  | page (id : Nat)
  | closeBtn
deriving DecidableEq, Repr

/-- The widget's whole mutable state.  `appendedOverlays` counts how many
overlay subtrees have been appended to `document.body`. -/
structure LightboxState where
  activeIndex : Int
  overlay : Option OverlayState
  restoreFocusTo : Option Elem
  bodyLightboxOpen : Bool
  keyListenerRegistered : Bool
  focused : Option Elem
  appendedOverlays : Nat
deriving DecidableEq, Repr

/-- JavaScript `x || d` on an optional string: `undefined`, `null` and
the empty string are falsy. -/
def jsStrOr (x : Option String) (d : String) : String :=
  match x with
  | none => d
  | some s => if s = "" then d else s

/-- JavaScript's `%` operator on integers: truncated remainder. -/
def jsMod (a b : Int) : Int := Int.tmod a b

/-- `((index % galleryLinks.length) + galleryLinks.length) % galleryLinks.length`
from `showAt`. -/
def normalize (index : Int) (n : Nat) : Int :=
  jsMod (jsMod index n + n) n

/-- `galleryLinks[index]` for an integer index: a negative or
out-of-range index yields `undefined`. -/
def linkAt (g : List GalleryLink) (index : Int) : Option GalleryLink :=
  if index < 0 then none else g.get? index.toNat

/-- `getItem(index)`: `null` when `galleryLinks[index]` is absent,
otherwise the link's `picture` and `img?.getAttribute("alt") || ""`. -/
def getItem (g : List GalleryLink) (index : Int) : Option ResolvedItem :=
  match linkAt g index with
  | none => none
  | some link =>
      some { picture := link.picture
             alt := jsStrOr (link.img.bind Img.alt) "" }

/-- `classList.add`: appends the class unless already present. -/
def addClass (c : String) (cs : List String) : List String :=
  if c ∈ cs then cs else cs ++ [c]

/-- The clone built by `setOverlayMedia`: `cloneNode(true)`, then
`classList.add("lightbox-media")`, then on the clone's `img` (if any)
`loading = "eager"`, `decoding = "async"`, `sizes = "100vw"`. -/
def makeClone (p : Picture) : Picture :=
  let withClass : Picture := { p with classes := addClass "lightbox-media" p.classes }
  match withClass.img with
  | none => withClass
  | some im =>
      { withClass with
          img := some { im with loading := "eager", decoding := "async", sizes := "100vw" } }

/-- `figure.querySelector("picture")?.remove()`: remove the first media
node, if any. -/
def removeFirstPicture : List FigNode → List FigNode
  | [] => []
  | FigNode.media _ :: rest => rest
  | FigNode.captionNode :: rest => FigNode.captionNode :: removeFirstPicture rest

/-- `figure.insertBefore(clone, caption)`: insert the clone right before
the caption node. -/
def insertBeforeCaption (p : Picture) : List FigNode → List FigNode
  | [] => [FigNode.media p]
  | FigNode.captionNode :: rest => FigNode.media p :: FigNode.captionNode :: rest
  | FigNode.media q :: rest => FigNode.media q :: insertBeforeCaption p rest

/-- `setOverlayMedia(item)`: removes the first existing media node, then,
if the item has a `picture`, inserts the configured clone before the
caption and sets `caption.textContent = item.alt || ""`.  Note that the
removal happens before the `if (!pictureClone) return` guard. -/
def setOverlayMedia (item : ResolvedItem) (ov : OverlayState) : OverlayState :=
  let fig := removeFirstPicture ov.figureChildren
  match item.picture with
  | none => { ov with figureChildren := fig }
  | some p =>
      { ov with
          figureChildren := insertBeforeCaption (makeClone p) fig
          captionText := jsStrOr (some item.alt) "" }

/-- The overlay subtree as `buildOverlay` constructs it: a hidden overlay
whose figure holds just the (empty) caption. -/
def initOverlay : OverlayState :=
  { figureChildren := [FigNode.captionNode], captionText := "", hidden := true }

/-- `buildOverlay()`: constructs a fresh overlay subtree and appends it to
`document.body`. -/
def buildOverlay (s : LightboxState) : LightboxState :=
  { s with overlay := some initOverlay, appendedOverlays := s.appendedOverlays + 1 }

/-- `showAt(index)`: normalizes the index, resolves the item, and on
success records the normalized index and updates the overlay media. -/
def showAt (g : List GalleryLink) (index : Int) (s : LightboxState) : LightboxState :=
  let normalized := normalize index g.length
  match getItem g normalized with
  | none => s
  | some item =>
      { s with
          activeIndex := normalized
          overlay := s.overlay.map (setOverlayMedia item) }

/-- `showByOffset(offset)`: `showAt(activeIndex + offset)`. -/
def showByOffset (g : List GalleryLink) (offset : Int) (s : LightboxState) : LightboxState :=
  showAt g (s.activeIndex + offset) s

/-- `openLightbox(index)`: builds the overlay if absent, records the
focused element, marks the body, reveals the overlay, shows the item,
registers the keydown listener, and focuses the close button. -/
def openLightbox (g : List GalleryLink) (index : Int) (s : LightboxState) : LightboxState :=
  let s1 := if s.overlay.isSome then s else buildOverlay s
  let s2 := { s1 with
                restoreFocusTo := s1.focused
                bodyLightboxOpen := true
                overlay := s1.overlay.map (fun ov => { ov with hidden := false }) }
  let s3 := showAt g index s2
  { s3 with keyListenerRegistered := true, focused := some Elem.closeBtn }

/-- `closeLightbox()`: no-op when the overlay is absent; otherwise hides
the overlay, removes the body marker, unregisters the keydown listener,
restores focus to the recorded element (if any), and clears the record. -/
def closeLightbox (s : LightboxState) : LightboxState :=
  match s.overlay with
  | none => s
  | some ov =>
      let s1 := { s with
                    overlay := some { ov with hidden := true }
                    bodyLightboxOpen := false
                    keyListenerRegistered := false }
      let s2 := match s1.restoreFocusTo with
                | some e => { s1 with focused := some e }
                | none => s1
      { s2 with restoreFocusTo := none }

/-- A `click` event's fields read by the thumbnail handler. -/
structure MouseEvent where
  defaultPrevented : Bool
  button : Int
  metaKey : Bool
  ctrlKey : Bool
  shiftKey : Bool
  altKey : Bool
deriving DecidableEq, Repr

/-- The guard of the per-thumbnail click handler. -/
def clickRejected (ev : MouseEvent) : Bool :=
  ev.defaultPrevented || ev.button != 0 || ev.metaKey || ev.ctrlKey || ev.shiftKey || ev.altKey

/-- The per-thumbnail click handler: returns the new state and whether
`preventDefault()` was called. -/
def thumbClickHandler (g : List GalleryLink) (index : Nat) (ev : MouseEvent)
    (s : LightboxState) : LightboxState × Bool :=
  if clickRejected ev then (s, false)
  else (openLightbox g index s, true)

/-- The widget's operations, as named by the specification:
`Activate` = `openLightbox`, `DisplayItem` = `showAt`,
`Navigate` = `showByOffset`, `Deactivate` = `closeLightbox`. -/
inductive Op where
  | activate (index : Int)
  | displayItem (index : Int)
  | navigate (offset : Int)
  | deactivate
deriving DecidableEq, Repr

/-- Apply one operation to the state. -/
def applyOp (g : List GalleryLink) (s : LightboxState) : Op → LightboxState
  | Op.activate i => openLightbox g i s
  | Op.displayItem i => showAt g i s
  | Op.navigate off => showByOffset g off s
  | Op.deactivate => closeLightbox s

/-- The initial state of the IIFE's module variables. -/
def initState : LightboxState :=
  { activeIndex := 0
    overlay := none
    restoreFocusTo := none
    bodyLightboxOpen := false
    keyListenerRegistered := false
    focused := none
    appendedOverlays := 0 }

/-- Run a sequence of operations from a state. -/
def runOps (g : List GalleryLink) (l : List Op) (s : LightboxState) : LightboxState :=
  l.foldl (applyOp g) s

/-- A state reachable from the initial state by some operation sequence. -/
def Reachable (g : List GalleryLink) (s : LightboxState) : Prop :=
  ∃ l : List Op, runOps g l initState = s

/-- Whether a figure child is a media node. -/
def isMediaNode : FigNode → Bool
  | FigNode.media _ => true
  | FigNode.captionNode => false

/-- Number of media nodes among the figure's children. -/
def mediaCount (l : List FigNode) : Nat := l.countP isMediaNode

/-- `figure.querySelector("picture")`: the first media node, if any. -/
def firstPicture : List FigNode → Option Picture
  | [] => none
  | FigNode.media p :: _ => some p
  | FigNode.captionNode :: rest => firstPicture rest

/-- Whether an operation is an `Activate`. -/
def isActivateOp : Op → Bool
  | Op.activate _ => true
  | _ => false

/-- Whether an operation is a `DisplayItem` or `Navigate`. -/
def isNavOp : Op → Bool
  | Op.displayItem _ => true
  | Op.navigate _ => true
  | _ => false

/-! ### Arithmetic of the index normalization -/

theorem tmod_gt_neg (i : Int) (n : Nat) (h : 1 ≤ n) : -(n : Int) < i.tmod n := by
  cases i with
  | ofNat m =>
      have h0 : 0 ≤ (Int.ofNat m).tmod n := Int.tmod_nonneg _ (Int.ofNat_nonneg m)
      omega
  | negSucc m =>
      have e : (Int.negSucc m).tmod (n : Int) = -((m.succ % n : Nat) : Int) := rfl
      have hm : m.succ % n < n := Nat.mod_lt _ (by omega)
      rw [e]
      omega

theorem tmod_emod (i : Int) (n : Nat) : (i.tmod n) % (n : Int) = i % n := by
  conv_rhs => rw [← Int.tmod_add_tdiv i n]
  rw [Int.add_mul_emod_self_left]

theorem normalize_eq_emod (i : Int) (n : Nat) (h : 1 ≤ n) : normalize i n = i % (n : Int) := by
  unfold normalize jsMod
  have h1 : 0 ≤ i.tmod n + n := by
    have := tmod_gt_neg i n h
    omega
  rw [Int.tmod_eq_emod h1 (Int.ofNat_nonneg n)]
  rw [show i.tmod (n : Int) + (n : Int) = i.tmod (n : Int) + (n : Int) * 1 by ring]
  rw [Int.add_mul_emod_self_left, tmod_emod]

theorem normalize_nonneg (i : Int) (n : Nat) (h : 1 ≤ n) : 0 ≤ normalize i n := by
  rw [normalize_eq_emod i n h]
  exact Int.emod_nonneg i (by omega)

theorem normalize_lt (i : Int) (n : Nat) (h : 1 ≤ n) : normalize i n < n := by
  rw [normalize_eq_emod i n h]
  exact Int.emod_lt_of_pos i (by omega)

theorem normalize_of_lt (i : Int) (n : Nat) (h0 : 0 ≤ i) (h : i < n) : normalize i n = i := by
  rw [normalize_eq_emod i n (by omega)]
  exact Int.emod_eq_of_lt h0 h

theorem normalize_period (i k : Int) (n : Nat) (h : 1 ≤ n) :
    normalize (i + k * n) n = normalize i n := by
  rw [normalize_eq_emod _ n h, normalize_eq_emod i n h]
  rw [show i + k * (n : Int) = i + (n : Int) * k by ring]
  exact Int.add_mul_emod_self_left i n k

theorem normalize_neg_one (n : Nat) (h : 1 ≤ n) : normalize (-1) n = (n : Int) - 1 := by
  have hp := normalize_period ((n : Int) - 1) (-1) n h
  rw [normalize_of_lt ((n : Int) - 1) n (by omega) (by omega)] at hp
  rw [show (-1 : Int) = (n : Int) - 1 + (-1) * n by ring]
  exact hp

theorem normalize_self (n : Nat) (h : 1 ≤ n) : normalize (n : Int) n = 0 := by
  have hp := normalize_period 0 1 n h
  rw [normalize_of_lt 0 n le_rfl (by omega)] at hp
  rw [show (n : Int) = 0 + 1 * n by ring]
  exact hp

/-! ### Structural lemmas about item resolution and `showAt` -/

theorem getItem_some_bounds {g : List GalleryLink} {i : Int} {item : ResolvedItem}
    (h : getItem g i = some item) : 0 ≤ i ∧ i < g.length := by
  unfold getItem linkAt at h
  by_cases hneg : i < 0
  · simp [hneg] at h
  · constructor
    · omega
    · simp only [hneg, if_false] at h
      cases hget : g.get? i.toNat with
      | none => rw [hget] at h; simp at h
      | some link =>
          obtain ⟨hlt, -⟩ := List.get?_eq_some.mp hget
          omega

theorem getItem_eq_of_get? {g : List GalleryLink} {i : Int} {link : GalleryLink}
    (h0 : 0 ≤ i) (h : g.get? i.toNat = some link) :
    getItem g i = some { picture := link.picture, alt := jsStrOr (link.img.bind Img.alt) "" } := by
  unfold getItem linkAt
  simp only [show ¬ i < 0 by omega, if_false, h]

theorem getItem_normalize_some (g : List GalleryLink) (i : Int) (h : 1 ≤ g.length) :
    ∃ link, g.get? (normalize i g.length).toNat = some link ∧
      getItem g (normalize i g.length) =
        some { picture := link.picture, alt := jsStrOr (link.img.bind Img.alt) "" } := by
  have h0 := normalize_nonneg i g.length h
  have h1 := normalize_lt i g.length h
  have hlt : (normalize i g.length).toNat < g.length := by omega
  cases hget : g.get? (normalize i g.length).toNat with
  | none =>
      have := List.get?_eq_none.mp hget
      omega
  | some link => exact ⟨link, rfl, getItem_eq_of_get? h0 hget⟩

theorem showAt_activeIndex (g : List GalleryLink) (i : Int) (s : LightboxState)
    (h : 1 ≤ g.length) : (showAt g i s).activeIndex = normalize i g.length := by
  obtain ⟨link, -, hitem⟩ := getItem_normalize_some g i h
  simp only [showAt, hitem]

/-! ### Field preservation lemmas -/

theorem setOverlayMedia_hidden (item : ResolvedItem) (ov : OverlayState) :
    (setOverlayMedia item ov).hidden = ov.hidden := by
  unfold setOverlayMedia
  cases item.picture <;> simp

theorem showAt_of_none {g : List GalleryLink} {i : Int} (s : LightboxState)
    (hget : getItem g (normalize i g.length) = none) : showAt g i s = s := by
  simp [showAt, hget]

theorem showAt_of_some {g : List GalleryLink} {i : Int} {item : ResolvedItem}
    (s : LightboxState) (hget : getItem g (normalize i g.length) = some item) :
    showAt g i s =
      { s with
          activeIndex := normalize i g.length
          overlay := s.overlay.map (setOverlayMedia item) } := by
  simp [showAt, hget]

theorem showAt_restoreFocusTo (g : List GalleryLink) (i : Int) (s : LightboxState) :
    (showAt g i s).restoreFocusTo = s.restoreFocusTo := by
  unfold showAt
  cases hget : getItem g (normalize i g.length) <;> simp [hget]

theorem showAt_focused (g : List GalleryLink) (i : Int) (s : LightboxState) :
    (showAt g i s).focused = s.focused := by
  unfold showAt
  cases hget : getItem g (normalize i g.length) <;> simp [hget]

theorem showAt_bodyOpen (g : List GalleryLink) (i : Int) (s : LightboxState) :
    (showAt g i s).bodyLightboxOpen = s.bodyLightboxOpen := by
  unfold showAt
  cases hget : getItem g (normalize i g.length) <;> simp [hget]

theorem showAt_keyListener (g : List GalleryLink) (i : Int) (s : LightboxState) :
    (showAt g i s).keyListenerRegistered = s.keyListenerRegistered := by
  unfold showAt
  cases hget : getItem g (normalize i g.length) <;> simp [hget]

theorem showAt_appendedOverlays (g : List GalleryLink) (i : Int) (s : LightboxState) :
    (showAt g i s).appendedOverlays = s.appendedOverlays := by
  unfold showAt
  cases hget : getItem g (normalize i g.length) <;> simp [hget]

theorem showAt_overlay_isSome (g : List GalleryLink) (i : Int) (s : LightboxState) :
    (showAt g i s).overlay.isSome = s.overlay.isSome := by
  cases hget : getItem g (normalize i g.length) with
  | none => rw [showAt_of_none s hget]
  | some item =>
      rw [showAt_of_some s hget]
      cases hov : s.overlay <;> simp [hov]

theorem showAt_overlay_hidden (g : List GalleryLink) (i : Int) (s : LightboxState) :
    (showAt g i s).overlay.map OverlayState.hidden = s.overlay.map OverlayState.hidden := by
  cases hget : getItem g (normalize i g.length) with
  | none => rw [showAt_of_none s hget]
  | some item =>
      rw [showAt_of_some s hget]
      cases hov : s.overlay with
      | none => simp
      | some ov => simp [setOverlayMedia_hidden]

theorem closeLightbox_of_none {s : LightboxState} (hov : s.overlay = none) :
    closeLightbox s = s := by
  simp [closeLightbox, hov]

theorem closeLightbox_of_some {s : LightboxState} {ov : OverlayState}
    (hov : s.overlay = some ov) :
    closeLightbox s =
      { s with
          overlay := some { ov with hidden := true }
          bodyLightboxOpen := false
          keyListenerRegistered := false
          focused := (match s.restoreFocusTo with
                      | some e => some e
                      | none => s.focused)
          restoreFocusTo := none } := by
  unfold closeLightbox
  rw [hov]
  cases hrf : s.restoreFocusTo <;> simp [hrf]

theorem closeLightbox_overlay_isSome (s : LightboxState) :
    (closeLightbox s).overlay.isSome = s.overlay.isSome := by
  cases hov : s.overlay with
  | none => simp [closeLightbox_of_none hov, hov]
  | some ov => simp [closeLightbox_of_some hov, hov]

theorem openLightbox_overlay_isSome (g : List GalleryLink) (i : Int) (s : LightboxState) :
    (openLightbox g i s).overlay.isSome = true := by
  unfold openLightbox
  rw [showAt_overlay_isSome]
  by_cases hov : s.overlay.isSome
  · obtain ⟨ov, hov⟩ := Option.isSome_iff_exists.mp hov
    simp [hov]
  · simp only [hov, if_false]
    simp [buildOverlay]

/-! ### The figure shape invariant -/

/-- Shape of the overlay figure maintained by the widget: the caption
alone, or exactly one media node right before the caption. -/
def FigOK (l : List FigNode) : Prop :=
  l = [FigNode.captionNode] ∨ ∃ p, l = [FigNode.media p, FigNode.captionNode]

theorem removeFirstPicture_figOK {l : List FigNode} (h : FigOK l) :
    removeFirstPicture l = [FigNode.captionNode] := by
  rcases h with h | ⟨p, h⟩ <;> rw [h] <;> rfl

theorem setOverlayMedia_figOK {item : ResolvedItem} {ov : OverlayState}
    (h : FigOK ov.figureChildren) : FigOK (setOverlayMedia item ov).figureChildren := by
  unfold setOverlayMedia
  rw [removeFirstPicture_figOK h]
  cases item.picture with
  | none => exact Or.inl rfl
  | some p => exact Or.inr ⟨makeClone p, rfl⟩

/-! ### The reachability invariant -/

/-- Invariant of every reachable widget state: the figure has the
maintained shape, the active index stays in range, a hidden overlay has
no pending focus record, body marker, or key listener, and exactly one
overlay subtree has been appended iff the overlay exists. -/
structure Inv (g : List GalleryLink) (s : LightboxState) : Prop where
  figOK : ∀ ov, s.overlay = some ov → FigOK ov.figureChildren
  idxNonneg : 0 ≤ s.activeIndex
  idxLt : 1 ≤ g.length → s.activeIndex < (g.length : Int)
  hiddenQuiescent : ∀ ov, s.overlay = some ov → ov.hidden = true →
    s.restoreFocusTo = none ∧ s.bodyLightboxOpen = false ∧ s.keyListenerRegistered = false
  countOK : s.appendedOverlays = (if s.overlay.isSome then 1 else 0)

theorem inv_initState (g : List GalleryLink) : Inv g initState := by
  refine ⟨?_, ?_, ?_, ?_, ?_⟩
  · intro ov hov
    simp [initState] at hov
  · exact le_refl 0
  · intro hlen
    simp only [initState]
    omega
  · intro ov hov
    simp [initState] at hov
  · rfl

theorem inv_showAt {g : List GalleryLink} {s : LightboxState} (i : Int)
    (h : Inv g s) : Inv g (showAt g i s) := by
  cases hget : getItem g (normalize i g.length) with
  | none => rw [showAt_of_none s hget]; exact h
  | some item =>
      rw [showAt_of_some s hget]
      obtain ⟨hge0, hlt⟩ := getItem_some_bounds hget
      refine ⟨?_, ?_, ?_, ?_, ?_⟩
      · intro ov hov
        simp only [Option.map_eq_some'] at hov
        obtain ⟨ov0, hov0, rfl⟩ := hov
        exact setOverlayMedia_figOK (h.figOK ov0 hov0)
      · exact hge0
      · intro _; exact hlt
      · intro ov hov hhid
        simp only [Option.map_eq_some'] at hov
        obtain ⟨ov0, hov0, rfl⟩ := hov
        rw [setOverlayMedia_hidden] at hhid
        exact h.hiddenQuiescent ov0 hov0 hhid
      · cases hov : s.overlay with
        | none => simpa [hov] using h.countOK
        | some ov => simpa [hov] using h.countOK

theorem inv_showByOffset {g : List GalleryLink} {s : LightboxState} (off : Int)
    (h : Inv g s) : Inv g (showByOffset g off s) :=
  inv_showAt _ h

/-- The state of `openLightbox` just before its `showAt` call: overlay
ensured, focus recorded, body marked, overlay revealed. -/
def openMid (s : LightboxState) : LightboxState :=
  let s1 := if s.overlay.isSome then s else buildOverlay s
  { s1 with
      restoreFocusTo := s1.focused
      bodyLightboxOpen := true
      overlay := s1.overlay.map (fun ov => { ov with hidden := false }) }

theorem openLightbox_eq (g : List GalleryLink) (i : Int) (s : LightboxState) :
    openLightbox g i s =
      { showAt g i (openMid s) with
          keyListenerRegistered := true, focused := some Elem.closeBtn } := rfl

theorem openMid_of_some {s : LightboxState} {ov : OverlayState}
    (hov : s.overlay = some ov) :
    openMid s =
      { s with
          restoreFocusTo := s.focused
          bodyLightboxOpen := true
          overlay := some { ov with hidden := false } } := by
  simp [openMid, hov]

theorem openMid_of_none {s : LightboxState} (hov : s.overlay = none) :
    openMid s =
      { s with
          restoreFocusTo := s.focused
          bodyLightboxOpen := true
          overlay := some { initOverlay with hidden := false }
          appendedOverlays := s.appendedOverlays + 1 } := by
  simp [openMid, hov, buildOverlay]

theorem openMid_overlay_hidden (s : LightboxState) :
    (openMid s).overlay.map OverlayState.hidden = some false := by
  cases hov : s.overlay with
  | none => rw [openMid_of_none hov]; rfl
  | some ov => rw [openMid_of_some hov]; rfl

theorem inv_openMid {g : List GalleryLink} {s : LightboxState} (h : Inv g s) :
    Inv g (openMid s) := by
  cases hov0 : s.overlay with
  | some ov0 =>
      rw [openMid_of_some hov0]
      refine ⟨?_, h.idxNonneg, h.idxLt, ?_, ?_⟩
      · intro ov hov
        injection hov with hov
        rw [← hov]
        exact h.figOK ov0 hov0
      · intro ov hov hhid
        injection hov with hov
        rw [← hov] at hhid
        simp at hhid
      · have hc := h.countOK
        rw [hov0] at hc
        simp at hc
        simp [hc]
  | none =>
      rw [openMid_of_none hov0]
      refine ⟨?_, h.idxNonneg, h.idxLt, ?_, ?_⟩
      · intro ov hov
        injection hov with hov
        rw [← hov]
        exact Or.inl rfl
      · intro ov hov hhid
        injection hov with hov
        rw [← hov] at hhid
        simp at hhid
      · have hc := h.countOK
        rw [hov0] at hc
        simp at hc
        simp [hc]

theorem inv_openLightbox {g : List GalleryLink} {s : LightboxState} (i : Int)
    (h : Inv g s) : Inv g (openLightbox g i s) := by
  rw [openLightbox_eq]
  have h3 := inv_showAt i (inv_openMid h)
  have hhid := showAt_overlay_hidden g i (openMid s)
  rw [openMid_overlay_hidden] at hhid
  refine ⟨?_, h3.idxNonneg, h3.idxLt, ?_, ?_⟩
  · intro ov hov
    have hov' : (showAt g i (openMid s)).overlay = some ov := hov
    exact h3.figOK ov hov'
  · intro ov hov hh
    have hov' : (showAt g i (openMid s)).overlay = some ov := hov
    rw [hov'] at hhid
    simp only [Option.map_some', Option.some.injEq] at hhid
    rw [hh] at hhid
    exact Bool.noConfusion hhid
  · simpa using h3.countOK

theorem inv_closeLightbox {g : List GalleryLink} {s : LightboxState}
    (h : Inv g s) : Inv g (closeLightbox s) := by
  cases hov : s.overlay with
  | none => rw [closeLightbox_of_none hov]; exact h
  | some ov =>
      rw [closeLightbox_of_some hov]
      refine ⟨?_, h.idxNonneg, h.idxLt, ?_, ?_⟩
      · intro ov' hov'
        injection hov' with hov'
        rw [← hov']
        exact h.figOK ov hov
      · intro ov' hov' hh
        exact ⟨rfl, rfl, rfl⟩
      · have hc := h.countOK
        rw [hov] at hc
        simp at hc
        simp [hc]

theorem inv_applyOp {g : List GalleryLink} {s : LightboxState} (op : Op)
    (h : Inv g s) : Inv g (applyOp g s op) := by
  cases op with
  | activate i => exact inv_openLightbox i h
  | displayItem i => exact inv_showAt i h
  | navigate off => exact inv_showByOffset off h
  | deactivate => exact inv_closeLightbox h

theorem inv_runOps {g : List GalleryLink} (l : List Op) {s : LightboxState}
    (h : Inv g s) : Inv g (runOps g l s) := by
  induction l generalizing s with
  | nil => exact h
  | cons op rest ih => exact ih (inv_applyOp op h)

theorem inv_reachable {g : List GalleryLink} {s : LightboxState}
    (h : Reachable g s) : Inv g s := by
  obtain ⟨l, rfl⟩ := h
  exact inv_runOps l (inv_initState g)

/-! ### Overlay construction counting -/

theorem applyOp_overlay_isSome (g : List GalleryLink) (s : LightboxState) (op : Op) :
    (applyOp g s op).overlay.isSome = (s.overlay.isSome || isActivateOp op) := by
  cases op with
  | activate i => simp [applyOp, openLightbox_overlay_isSome, isActivateOp]
  | displayItem i => simp [applyOp, showAt_overlay_isSome, isActivateOp]
  | navigate off => simp [applyOp, showByOffset, showAt_overlay_isSome, isActivateOp]
  | deactivate => simp [applyOp, closeLightbox_overlay_isSome, isActivateOp]

theorem runOps_overlay_isSome (g : List GalleryLink) (l : List Op) (s : LightboxState) :
    (runOps g l s).overlay.isSome = (s.overlay.isSome || l.any isActivateOp) := by
  induction l generalizing s with
  | nil => simp [runOps]
  | cons op rest ih =>
      rw [show runOps g (op :: rest) s = runOps g rest (applyOp g s op) from rfl]
      rw [ih, applyOp_overlay_isSome]
      simp [List.any_cons, Bool.or_assoc]

/-! ### Claim theorems -/

/-- Claim C7: across any operation sequence, the overlay subtree is
appended to the document body exactly once, on the first `Activate`; the
overlay exists after a sequence iff the sequence contains an `Activate`,
and no second subtree is ever appended. -/
theorem overlay_built_exactly_once (g : List GalleryLink) (l : List Op) :
    (runOps g l initState).appendedOverlays = (if l.any isActivateOp then 1 else 0) ∧
    (runOps g l initState).overlay.isSome = l.any isActivateOp := by
  have hinv := inv_runOps l (inv_initState g)
  have hsome := runOps_overlay_isSome g l initState
  rw [show initState.overlay.isSome = false from rfl, Bool.false_or] at hsome
  refine ⟨?_, hsome⟩
  rw [hinv.countOK, hsome]

/-- Claim C2: `DisplayItem` normalizes any integer index by modulo
wrap-around into `[0, n)`; `-1` maps to the last item, `Navigate(+1)`
from index `n-1` yields `0`, and `Navigate(-1)` from index `0` yields
`n-1`. -/
theorem displayItem_modulo_wraparound (g : List GalleryLink) (h : 1 ≤ g.length)
    (i : Int) (s : LightboxState) :
    (showAt g i s).activeIndex = i % (g.length : Int) ∧
    0 ≤ (showAt g i s).activeIndex ∧
    (showAt g i s).activeIndex < (g.length : Int) ∧
    (showAt g (-1) s).activeIndex = (g.length : Int) - 1 ∧
    (s.activeIndex = (g.length : Int) - 1 → (showByOffset g 1 s).activeIndex = 0) ∧
    (s.activeIndex = 0 → (showByOffset g (-1) s).activeIndex = (g.length : Int) - 1) := by
  refine ⟨?_, ?_, ?_, ?_, ?_, ?_⟩
  · rw [showAt_activeIndex g i s h, normalize_eq_emod i g.length h]
  · rw [showAt_activeIndex g i s h]
    exact normalize_nonneg i g.length h
  · rw [showAt_activeIndex g i s h]
    exact normalize_lt i g.length h
  · rw [showAt_activeIndex g (-1) s h, normalize_neg_one g.length h]
  · intro hidx
    unfold showByOffset
    rw [showAt_activeIndex g _ s h, hidx]
    rw [show (g.length : Int) - 1 + 1 = (g.length : Int) by ring]
    exact normalize_self g.length h
  · intro hidx
    unfold showByOffset
    rw [showAt_activeIndex g _ s h, hidx]
    rw [show (0 : Int) + -1 = -1 by ring]
    exact normalize_neg_one g.length h

/-- Claim C10: `DisplayItem` is periodic in its index argument with
period `itemCount`: `DisplayItem(i)` and `DisplayItem(i + k * n)` from
the same state produce identical states. -/
theorem displayItem_periodic (g : List GalleryLink) (h : 1 ≤ g.length)
    (i k : Int) (s : LightboxState) :
    showAt g (i + k * (g.length : Int)) s = showAt g i s := by
  unfold showAt
  rw [normalize_period i k g.length h]

/-- Claim C4: in every reachable state of a gallery with at least one
item, whenever the overlay is open the active index lies in
`[0, itemCount)`. -/
theorem activeIndex_in_range_when_open (g : List GalleryLink) (h : 1 ≤ g.length)
    (s : LightboxState) (hs : Reachable g s) (ov : OverlayState)
    (hov : s.overlay = some ov) (hvis : ov.hidden = false) :
    0 ≤ s.activeIndex ∧ s.activeIndex < (g.length : Int) := by
  have hinv := inv_reachable hs
  exact ⟨hinv.idxNonneg, hinv.idxLt h⟩

/-- Claim C3: in every reachable state, at most one media node is
attached inside the overlay's figure. -/
theorem overlay_at_most_one_media (g : List GalleryLink) (s : LightboxState)
    (hs : Reachable g s) (ov : OverlayState) (hov : s.overlay = some ov) :
    mediaCount ov.figureChildren ≤ 1 := by
  have hinv := inv_reachable hs
  rcases hinv.figOK ov hov with hfig | ⟨p, hfig⟩ <;>
    simp [hfig, mediaCount, isMediaNode]

/-- Claim C9: in any reachable state where the overlay is absent or
hidden, `Deactivate` leaves the entire state unchanged. -/
theorem deactivate_noop_when_closed (g : List GalleryLink) (s : LightboxState)
    (hs : Reachable g s)
    (h : s.overlay = none ∨ ∃ ov, s.overlay = some ov ∧ ov.hidden = true) :
    closeLightbox s = s := by
  rcases h with hov | ⟨ov, hov, hhid⟩
  · exact closeLightbox_of_none hov
  · have hinv := inv_reachable hs
    obtain ⟨hrf, hbody, hkey⟩ := hinv.hiddenQuiescent ov hov hhid
    rw [closeLightbox_of_some hov]
    rcases ov with ⟨fc, ct, hd⟩
    rcases s with ⟨ai, ovf, rf, body, key, foc, cnt⟩
    simp only at hov hrf hbody hkey hhid
    subst hov hrf hbody hkey hhid
    rfl

/-- Claim C6: a thumbnail click that is modified (ctrl/meta/shift/alt),
non-primary, or already default-prevented neither opens the overlay nor
prevents default navigation; any other click prevents default and
activates the widget at that thumbnail's position. -/
theorem thumbnail_click_policy (g : List GalleryLink) (i : Nat) (ev : MouseEvent)
    (s : LightboxState) :
    ((ev.defaultPrevented = true ∨ ev.button ≠ 0 ∨ ev.metaKey = true ∨
        ev.ctrlKey = true ∨ ev.shiftKey = true ∨ ev.altKey = true) →
      thumbClickHandler g i ev s = (s, false)) ∧
    ((ev.defaultPrevented = false ∧ ev.button = 0 ∧ ev.metaKey = false ∧
        ev.ctrlKey = false ∧ ev.shiftKey = false ∧ ev.altKey = false) →
      thumbClickHandler g i ev s = (openLightbox g i s, true)) := by
  constructor
  · intro hcond
    have hrej : clickRejected ev = true := by
      unfold clickRejected
      rcases hcond with h | h | h | h | h | h <;> simp [h]
    simp [thumbClickHandler, hrej]
  · rintro ⟨h1, h2, h3, h4, h5, h6⟩
    have hrej : clickRejected ev = false := by
      unfold clickRejected
      simp [h1, h2, h3, h4, h5, h6]
    simp [thumbClickHandler, hrej]

/-! ### Focus restoration -/

theorem navOps_preserve (g : List GalleryLink) :
    ∀ l : List Op, l.all isNavOp = true → ∀ s : LightboxState,
      (runOps g l s).focused = s.focused ∧
      (runOps g l s).restoreFocusTo = s.restoreFocusTo ∧
      (runOps g l s).overlay.isSome = s.overlay.isSome := by
  intro l
  induction l with
  | nil => intro _ s; exact ⟨rfl, rfl, rfl⟩
  | cons op rest ih =>
      intro hl s
      rw [List.all_cons, Bool.and_eq_true] at hl
      obtain ⟨hop, hrest⟩ := hl
      have hstep : (applyOp g s op).focused = s.focused ∧
          (applyOp g s op).restoreFocusTo = s.restoreFocusTo ∧
          (applyOp g s op).overlay.isSome = s.overlay.isSome := by
        cases op with
        | activate i => simp [isNavOp] at hop
        | displayItem i =>
            exact ⟨showAt_focused g i s, showAt_restoreFocusTo g i s,
                   showAt_overlay_isSome g i s⟩
        | navigate off =>
            exact ⟨showAt_focused g _ s, showAt_restoreFocusTo g _ s,
                   showAt_overlay_isSome g _ s⟩
        | deactivate => simp [isNavOp] at hop
      obtain ⟨ih1, ih2, ih3⟩ := ih hrest (applyOp g s op)
      rw [show runOps g (op :: rest) s = runOps g rest (applyOp g s op) from rfl]
      exact ⟨ih1.trans hstep.1, ih2.trans hstep.2.1, ih3.trans hstep.2.2⟩

theorem openLightbox_restoreFocusTo (g : List GalleryLink) (i : Int) (s : LightboxState) :
    (openLightbox g i s).restoreFocusTo = s.focused := by
  rw [openLightbox_eq]
  show (showAt g i (openMid s)).restoreFocusTo = s.focused
  rw [showAt_restoreFocusTo]
  cases hov0 : s.overlay with
  | none => rw [openMid_of_none hov0]
  | some ov0 => rw [openMid_of_some hov0]

/-- Claim C8: after an `Activate` followed by any sequence of
`DisplayItem`/`Navigate` operations, `Deactivate` restores keyboard
focus to the element focused immediately before the `Activate` (when one
was recorded) and clears the record. -/
theorem deactivate_restores_focus (g : List GalleryLink) (s : LightboxState) (i : Int)
    (l : List Op) (hl : l.all isNavOp = true) :
    (closeLightbox (runOps g l (openLightbox g i s))).restoreFocusTo = none ∧
    ∀ e, s.focused = some e →
      (closeLightbox (runOps g l (openLightbox g i s))).focused = some e := by
  obtain ⟨hfoc, hrest, hsome⟩ := navOps_preserve g l hl (openLightbox g i s)
  have htsome : (runOps g l (openLightbox g i s)).overlay.isSome = true := by
    rw [hsome, openLightbox_overlay_isSome]
  obtain ⟨ov, hov⟩ := Option.isSome_iff_exists.mp htsome
  rw [closeLightbox_of_some hov]
  have hrt : (runOps g l (openLightbox g i s)).restoreFocusTo = s.focused := by
    rw [hrest, openLightbox_restoreFocusTo]
  constructor
  · rfl
  · intro e he
    show (match (runOps g l (openLightbox g i s)).restoreFocusTo with
          | some e' => some e'
          | none => (runOps g l (openLightbox g i s)).focused) = some e
    rw [hrt, he]

/-! ### Media clone and caption helpers -/

theorem jsStrOr_jsStrOr (x : Option String) :
    jsStrOr (some (jsStrOr x "")) "" = x.getD "" := by
  cases x with
  | none => rfl
  | some s => by_cases hs : s = "" <;> simp [jsStrOr, hs]

theorem mem_addClass (c : String) (cs : List String) : c ∈ addClass c cs := by
  by_cases h : c ∈ cs <;> simp [addClass, h]

theorem makeClone_content (p : Picture) : (makeClone p).content = p.content := by
  unfold makeClone
  cases hpi : p.img <;> simp [hpi]

theorem makeClone_classes_mem (p : Picture) : "lightbox-media" ∈ (makeClone p).classes := by
  have h := mem_addClass "lightbox-media" p.classes
  unfold makeClone
  cases hpi : p.img <;> simpa [hpi] using h

theorem setOverlayMedia_of_some {item : ResolvedItem} {ov : OverlayState} {p : Picture}
    (hfig : FigOK ov.figureChildren) (hpic : item.picture = some p) :
    (setOverlayMedia item ov).figureChildren =
      [FigNode.media (makeClone p), FigNode.captionNode] ∧
    (setOverlayMedia item ov).captionText = jsStrOr (some item.alt) "" := by
  unfold setOverlayMedia
  rw [hpic, removeFirstPicture_figOK hfig]
  exact ⟨rfl, rfl⟩

theorem setOverlayMedia_of_none {item : ResolvedItem} {ov : OverlayState}
    (hpic : item.picture = none) :
    setOverlayMedia item ov =
      { ov with figureChildren := removeFirstPicture ov.figureChildren } := by
  unfold setOverlayMedia
  rw [hpic]

theorem openMid_overlay_figOK {g : List GalleryLink} {s : LightboxState}
    (hs : Reachable g s) :
    ∃ ovMid, (openMid s).overlay = some ovMid ∧ FigOK ovMid.figureChildren := by
  have hinvMid := inv_openMid (inv_reachable hs)
  have hhid := openMid_overlay_hidden s
  cases hmo : (openMid s).overlay with
  | none => rw [hmo] at hhid; simp at hhid
  | some ovMid => exact ⟨ovMid, rfl, hinvMid.figOK ovMid hmo⟩

/-- Claim C1: activating the widget at a valid index whose gallery item
has a picture leaves the overlay holding exactly one media node, a
configured clone of that item's picture subtree, with the caption equal
to the item's alt text (empty string when absent). -/
theorem activate_displays_media_and_caption (g : List GalleryLink)
    (s : LightboxState) (hs : Reachable g s) (i : Nat) (hi : i < g.length)
    (link : GalleryLink) (hlink : g.get? i = some link)
    (p : Picture) (hp : link.picture = some p) :
    (∃ ov, (openLightbox g (i : Int) s).overlay = some ov ∧
      firstPicture ov.figureChildren = some (makeClone p) ∧
      mediaCount ov.figureChildren = 1 ∧
      ov.captionText = (link.img.bind Img.alt).getD "") ∧
    "lightbox-media" ∈ (makeClone p).classes ∧
    (makeClone p).content = p.content := by
  refine ⟨?_, makeClone_classes_mem p, makeClone_content p⟩
  have hn : 1 ≤ g.length := by omega
  have hnorm : normalize (i : Int) g.length = (i : Int) :=
    normalize_of_lt _ _ (by omega) (by exact_mod_cast hi)
  have htoNat : ((i : Int)).toNat = i := by omega
  have hget : getItem g (normalize (i : Int) g.length) =
      some { picture := link.picture, alt := jsStrOr (link.img.bind Img.alt) "" } := by
    rw [hnorm]
    exact getItem_eq_of_get? (by omega) (by rw [htoNat]; exact hlink)
  obtain ⟨ovMid, hovMid, hfigMid⟩ := openMid_overlay_figOK hs
  set item : ResolvedItem :=
    { picture := link.picture, alt := jsStrOr (link.img.bind Img.alt) "" } with hitem
  refine ⟨setOverlayMedia item ovMid, ?_, ?_, ?_, ?_⟩
  · show (showAt g (i : Int) (openMid s)).overlay = some (setOverlayMedia item ovMid)
    rw [showAt_of_some (openMid s) hget]
    show (openMid s).overlay.map (setOverlayMedia item) = some (setOverlayMedia item ovMid)
    rw [hovMid]
    rfl
  · obtain ⟨hfc, -⟩ := setOverlayMedia_of_some hfigMid (show item.picture = some p from hp)
    rw [hfc]
    rfl
  · obtain ⟨hfc, -⟩ := setOverlayMedia_of_some hfigMid (show item.picture = some p from hp)
    rw [hfc]
    rfl
  · obtain ⟨-, hcap⟩ := setOverlayMedia_of_some hfigMid (show item.picture = some p from hp)
    rw [hcap]
    exact jsStrOr_jsStrOr (link.img.bind Img.alt)

/-- Claim C5 (amended): when `DisplayItem` resolves a gallery item whose
picture is absent it raises no error, inserts no media, and leaves the
caption and overlay visibility unchanged, but it still removes the
existing media node from the overlay figure and still updates the active
index to the normalized index. -/
theorem displayItem_missing_media_amended (g : List GalleryLink) (s : LightboxState)
    (hs : Reachable g s) (i : Int) (item : ResolvedItem)
    (hget : getItem g (normalize i g.length) = some item)
    (hpic : item.picture = none) :
    (showAt g i s).activeIndex = normalize i g.length ∧
    ∀ ov0, s.overlay = some ov0 →
      ∃ ov, (showAt g i s).overlay = some ov ∧
        mediaCount ov.figureChildren = 0 ∧
        ov.captionText = ov0.captionText ∧
        ov.hidden = ov0.hidden := by
  rw [showAt_of_some s hget]
  constructor
  · rfl
  · intro ov0 hov0
    refine ⟨setOverlayMedia item ov0, ?_, ?_, ?_, ?_⟩
    · show s.overlay.map (setOverlayMedia item) = some (setOverlayMedia item ov0)
      rw [hov0]
      rfl
    · rw [setOverlayMedia_of_none hpic]
      have hfig := (inv_reachable hs).figOK ov0 hov0
      show mediaCount (removeFirstPicture ov0.figureChildren) = 0
      rw [removeFirstPicture_figOK hfig]
      rfl
    · rw [setOverlayMedia_of_none hpic]
    · rw [setOverlayMedia_of_none hpic]

/-! ### Concrete demonstration gallery and witnesses -/

/-- A sample `img` as it appears in the page markup. -/
def demoImg : Img :=
  { alt := some "Foto A", loading := "lazy", decoding := "auto", sizes := "50vw" }

/-- A sample `picture` subtree. -/
def demoPic : Picture := { content := 7, img := some demoImg, classes := ["thumb"] }

/-- A thumbnail link whose item has a picture. -/
def demoLinkA : GalleryLink := { picture := some demoPic, img := some demoImg }

/-- A thumbnail link whose item has no picture and no img. -/
def demoLinkNoPic : GalleryLink := { picture := none, img := none }

/-- A two-item gallery: one complete item, one without a picture. -/
def demoGallery : List GalleryLink := [demoLinkA, demoLinkNoPic]

/-- The state after activating item 0 of the demo gallery. -/
def demoOpen : LightboxState := runOps demoGallery [Op.activate 0] initState

/-- The overlay of `demoOpen`. -/
def demoOv : OverlayState :=
  { figureChildren := [FigNode.media (makeClone demoPic), FigNode.captionNode]
    captionText := "Foto A"
    hidden := false }

/-- The state after activating item 0 and then deactivating. -/
def demoClosed : LightboxState :=
  runOps demoGallery [Op.activate 0, Op.deactivate] initState

/-- The overlay of `demoClosed`. -/
def demoOvHidden : OverlayState :=
  { figureChildren := [FigNode.media (makeClone demoPic), FigNode.captionNode]
    captionText := "Foto A"
    hidden := true }

/-- A ctrl-modified primary click. -/
def demoCtrlClick : MouseEvent :=
  { defaultPrevented := false, button := 0, metaKey := false, ctrlKey := true
    shiftKey := false, altKey := false }

/-- An unmodified primary click. -/
def demoPlainClick : MouseEvent :=
  { defaultPrevented := false, button := 0, metaKey := false, ctrlKey := false
    shiftKey := false, altKey := false }

/-- The initial state with a page element focused. -/
def demoFocusState : LightboxState := { initState with focused := some (Elem.page 3) }

/-- Claim C5 counterexample: displaying item 1 of the demo gallery
(whose picture is absent) from the opened state changes the viewer
state: the active index moves from 0 to 1 and the existing media node is
removed from the overlay, so the operation is not a state-preserving
no-op. -/
theorem displayItem_missing_media_counterexample :
    demoGallery.get? 1 = some demoLinkNoPic ∧
    demoLinkNoPic.picture = none ∧
    demoOpen.activeIndex = 0 ∧
    (showAt demoGallery 1 demoOpen).activeIndex = 1 ∧
    demoOpen.overlay.map (fun ov => mediaCount ov.figureChildren) = some 1 ∧
    (showAt demoGallery 1 demoOpen).overlay.map
        (fun ov => mediaCount ov.figureChildren) = some 0 :=
  ⟨rfl, rfl, rfl, rfl, rfl, rfl⟩

/-- Witness for C1 at the demo gallery's first item. -/
theorem activate_displays_media_and_caption_witness :
    (∃ ov, (openLightbox demoGallery ((0 : Nat) : Int) initState).overlay = some ov ∧
      firstPicture ov.figureChildren = some (makeClone demoPic) ∧
      mediaCount ov.figureChildren = 1 ∧
      ov.captionText = (demoLinkA.img.bind Img.alt).getD "") ∧
    "lightbox-media" ∈ (makeClone demoPic).classes ∧
    (makeClone demoPic).content = demoPic.content :=
  activate_displays_media_and_caption demoGallery initState ⟨[], rfl⟩ 0 (by decide)
    demoLinkA rfl demoPic rfl

/-- Witness for C2 at index 5 of the two-item demo gallery. -/
theorem displayItem_modulo_wraparound_witness :
    (showAt demoGallery 5 initState).activeIndex = 5 % (demoGallery.length : Int) ∧
    0 ≤ (showAt demoGallery 5 initState).activeIndex ∧
    (showAt demoGallery 5 initState).activeIndex < (demoGallery.length : Int) ∧
    (showAt demoGallery (-1) initState).activeIndex = (demoGallery.length : Int) - 1 ∧
    (initState.activeIndex = (demoGallery.length : Int) - 1 →
      (showByOffset demoGallery 1 initState).activeIndex = 0) ∧
    (initState.activeIndex = 0 →
      (showByOffset demoGallery (-1) initState).activeIndex =
        (demoGallery.length : Int) - 1) :=
  displayItem_modulo_wraparound demoGallery (by decide) 5 initState

/-- Witness for C3 at the opened demo state. -/
theorem overlay_at_most_one_media_witness :
    mediaCount demoOv.figureChildren ≤ 1 :=
  overlay_at_most_one_media demoGallery demoOpen ⟨[Op.activate 0], rfl⟩ demoOv rfl

/-- Witness for C4 at the opened demo state. -/
theorem activeIndex_in_range_when_open_witness :
    0 ≤ demoOpen.activeIndex ∧ demoOpen.activeIndex < (demoGallery.length : Int) :=
  activeIndex_in_range_when_open demoGallery (by decide) demoOpen
    ⟨[Op.activate 0], rfl⟩ demoOv rfl rfl

/-- Witness for C5 (amended) at the demo item without a picture. -/
theorem displayItem_missing_media_amended_witness :
    (showAt demoGallery 1 demoOpen).activeIndex = normalize 1 demoGallery.length ∧
    ∀ ov0, demoOpen.overlay = some ov0 →
      ∃ ov, (showAt demoGallery 1 demoOpen).overlay = some ov ∧
        mediaCount ov.figureChildren = 0 ∧
        ov.captionText = ov0.captionText ∧
        ov.hidden = ov0.hidden :=
  displayItem_missing_media_amended demoGallery demoOpen ⟨[Op.activate 0], rfl⟩ 1
    { picture := none, alt := "" } rfl rfl

/-- Witness for C6: a ctrl-click is ignored, a plain click activates. -/
theorem thumbnail_click_policy_witness :
    thumbClickHandler demoGallery 0 demoCtrlClick initState = (initState, false) ∧
    thumbClickHandler demoGallery 0 demoPlainClick initState =
      (openLightbox demoGallery 0 initState, true) :=
  ⟨(thumbnail_click_policy demoGallery 0 demoCtrlClick initState).1
      (Or.inr (Or.inr (Or.inr (Or.inl rfl)))),
   (thumbnail_click_policy demoGallery 0 demoPlainClick initState).2
      ⟨rfl, rfl, rfl, rfl, rfl, rfl⟩⟩

/-- Witness for C8: open from a focused page element, navigate once,
close; focus returns to the page element and the record is cleared. -/
theorem deactivate_restores_focus_witness :
    (closeLightbox (runOps demoGallery [Op.navigate 1]
        (openLightbox demoGallery 0 demoFocusState))).restoreFocusTo = none ∧
    (closeLightbox (runOps demoGallery [Op.navigate 1]
        (openLightbox demoGallery 0 demoFocusState))).focused = some (Elem.page 3) :=
  ⟨(deactivate_restores_focus demoGallery demoFocusState 0 [Op.navigate 1] (by decide)).1,
   (deactivate_restores_focus demoGallery demoFocusState 0 [Op.navigate 1] (by decide)).2
      (Elem.page 3) rfl⟩

/-- Witness for C9 at the closed demo state. -/
theorem deactivate_noop_when_closed_witness :
    closeLightbox demoClosed = demoClosed :=
  deactivate_noop_when_closed demoGallery demoClosed
    ⟨[Op.activate 0, Op.deactivate], rfl⟩ (Or.inr ⟨demoOvHidden, rfl, rfl⟩)

/-- Witness for C10 with period 2 and multiplier 3. -/
theorem displayItem_periodic_witness :
    showAt demoGallery (1 + 3 * (demoGallery.length : Int)) initState =
      showAt demoGallery 1 initState :=
  displayItem_periodic demoGallery (by decide) 1 3 initState

end GalleryLightbox
